import Mathlib

/-!
Verification of the Authentication & Session Lifecycle Engine of runtipi
(`AuthServiceClass` in the visible sources), as a shallow embedding.

Conventions of the embedding:
* The relational user store is a `List User`; the key-value cache is an
  association list `List (String × String)` (first binding of a key wins,
  as a cache has at most one binding per key).
* Every service operation is a pure function from an explicit `AuthState`
  (users, cache, reset-marker file) to `Except AuthError (result × AuthState)`.
  A thrown `TranslatedError` in the source is an `.error`; the source never
  mutates state before throwing inside an operation, so an error result means
  the caller keeps the initial state (made explicit by `stateAfter`).
* External collaborators (argon2, the secret codec, the TOTP verifier, the
  email validator, locale parsing) are fields of an `Env` record of pure
  functions; fresh random identifiers (uuidv4, generateSessionId) are passed
  as explicit arguments.
-/

namespace Runtipi

/-- A user record, per the relational store's schema used by the service:
numeric id, case-normalized username, password hash, TOTP enrollment
(`totpEnabled`, nullable ciphertext `totpSecret`, nullable `salt`),
`operator` role flag and locale. -/
structure User where
  id : Nat
  username : String
  password : String
  totpEnabled : Bool
  totpSecret : Option String
  salt : Option String
  operator : Bool
  locale : String
  deriving Repr, DecidableEq

/-- The external pure collaborators of the service.
`verify hash pw` is argon2.verify, `hashPw` is argon2.hash (its result is
opaque to the service), `decrypt`/`encrypt` the secret codec,
`totpCheck code secret` is TotpAuthenticator.check, `keyuri` builds the
provisioning URI, `isEmail` is validator.isEmail, `localeOf` is
getLocaleFromString, `isLocaleValid` is Locales.includes, and `demoMode`
is TipiConfig.getConfig().demoMode. -/
structure Env where
  demoMode : Bool
  verify : String → String → Bool
  hashPw : String → String
  decrypt : String → String → String
  encrypt : String → String → String
  totpCheck : String → String → Bool
  keyuri : String → String → String → String
  isEmail : String → Bool
  localeOf : Option String → String
  isLocaleValid : String → Bool

/-- The mutable external state the service acts on: the user table, the
cache (sessions and pending TOTP challenges), and the presence of the
`/runtipi/state/password-change-request` marker file. -/
structure AuthState where
  users : List User
  cache : List (String × String)
  marker : Bool
  deriving Repr, DecidableEq

/-- The named failures (TranslatedError message keys) the service throws. -/
inductive AuthError where
  | userNotFound
  | invalidCredentials
  | totpSessionNotFound
  | totpNotEnabled
  | totpInvalidCode
  | totpAlreadyEnabled
  | notAllowedInDemo
  | invalidPassword
  | adminAlreadyExists
  | missingEmailOrPassword
  | invalidUsername
  | userAlreadyExists
  | errorCreatingUser
  | noChangePasswordRequest
  | operatorNotFound
  | invalidPasswordLength
  | invalidLocale
  deriving Repr, DecidableEq

/-- JavaScript truthiness of a nullable string: `null` and `""` are falsy. -/
def jsTruthy : Option String → Bool
  | none => false
  | some s => s ≠ ""

/-- JS `String.prototype.toLowerCase` (character-wise lowercasing, as for
the ASCII usernames the service handles). -/
def jsToLower (s : String) : String :=
  String.mk (s.data.map Char.toLower)

/-- JS `String.prototype.trim`: strip leading and trailing whitespace. -/
def jsTrim (s : String) : String :=
  String.mk (((s.data.dropWhile Char.isWhitespace).reverse.dropWhile
    Char.isWhitespace).reverse)

/-- JS `Number(string)` as used on cached user ids (`Number(userId)` before
`getUserById`): a string of digits parses to the number it denotes, any
other string is NaN and matches no user id. -/
def jsToNat? (s : String) : Option Nat :=
  if s.data ≠ [] ∧ s.data.all Char.isDigit then
    some (s.data.foldl (fun n c => n * 10 + (c.toNat - 48)) 0)
  else none

/-- Modelled from the spec: the external cache's `set(key, value)` (§6).
Overwrites any previous binding of the key. -/
def cacheSet (c : List (String × String)) (k v : String) : List (String × String) :=
  (k, v) :: c.filter (fun p => p.1 ≠ k)

/-- Modelled from the spec: the external cache's `get(key)` (§6); absence is
`none`, not an error. -/
def cacheGet (c : List (String × String)) (k : String) : Option String :=
  (c.find? (fun p => p.1 = k)).map (fun p => p.2)

/-- Modelled from the spec: the external cache's `del(key)` (§6); idempotent,
deleting an absent key is a no-op. -/
def cacheDel (c : List (String × String)) (k : String) : List (String × String) :=
  c.filter (fun p => p.1 ≠ k)

/-- A string starts with the given characters (compared on the character
lists of the two strings). -/
def strHasPre (pre s : String) : Bool :=
  pre.data.isPrefixOf s.data

/-- Modelled from the spec: the external cache's prefix enumeration (§6),
returning the `\x7bkey, val\x7d` pairs of every entry whose key starts with the
given string. -/
def cacheGetPre (c : List (String × String)) (pre : String) : List (String × String) :=
  c.filter (fun p => strHasPre pre p.1)

/-- `AuthQueries.getUserByUsername`: first user with the given username. -/
def getUserByUsername (users : List User) (name : String) : Option User :=
  users.find? (fun u => u.username = name)

/-- `AuthQueries.getUserById`: first user with the given id. -/
def getUserById (users : List User) (id : Nat) : Option User :=
  users.find? (fun u => u.id = id)

/-- `AuthQueries.getOperators`: every user with the operator flag. -/
def getOperators (users : List User) : List User :=
  users.filter (fun u => u.operator)

/-- `AuthQueries.getFirstOperator`: first user with the operator flag. -/
def getFirstOperator (users : List User) : Option User :=
  users.find? (fun u => u.operator)

/-- `AuthQueries.updateUser id partial`: apply a partial field update to the
rows with the given id (the id is the primary key). -/
def updateUser (users : List User) (id : Nat) (f : User → User) : List User :=
  users.map (fun u => if u.id = id then f u else u)

/-- `generateSessionId(prefix)` from session.helpers (not in the visible
sources). Modelled from the spec: an unpredictable identifier under the
given namespace prefix; the random part is the explicit `fresh` argument. -/
def generateSessionId (pre fresh : String) : String :=
  pre ++ fresh

/-- Modelled from the spec: `setSession` from session.helpers is not in the
visible sources. Per §3 a session is a pair of cache entries written
together: the primary `session:<sessionId>` → user id, and the tracking
`session:<userId>:<sessionId>`; per §4.3 the revoke-all sweep deletes the
tracking entry and "the session entry it points to", so the tracking
entry's value is the primary key `session:<sessionId>`. -/
def setSession (st : AuthState) (sessionId userId : String) : AuthState :=
  let sessionKey := "session:" ++ sessionId
  { st with
    cache := cacheSet (cacheSet st.cache sessionKey userId)
      ("session:" ++ userId ++ ":" ++ sessionId) sessionKey }

/-- Result of `login`: the source returns either `\x7b sessionId \x7d` or
`\x7b totpSessionId \x7d`. -/
inductive LoginResult where
  | session (sessionId : String)
  | totp (totpSessionId : String)
  deriving Repr, DecidableEq

/-- `AuthServiceClass.login`: look the user up by username, verify the
password; with TOTP enabled store a challenge `otp<fresh>` → user id in the
cache and return it, otherwise create a session `fresh` and return it. -/
def login (env : Env) (st : AuthState) (username password fresh : String) :
    Except AuthError (LoginResult × AuthState) :=
  match getUserByUsername st.users username with
  | none => .error .userNotFound
  | some user =>
    if ¬ env.verify user.password password then .error .invalidCredentials
    else if user.totpEnabled then
      let totpSessionId := generateSessionId "otp" fresh
      .ok (.totp totpSessionId,
        { st with cache := cacheSet st.cache totpSessionId (toString user.id) })
    else
      .ok (.session fresh, setSession st fresh (toString user.id))

/-- `AuthServiceClass.verifyTotp`: resolve the challenge id in the cache to a
user id, load the user, require TOTP enrollment, check the code against the
decrypted seed, and on success create a session and return `true`. The
source never deletes the challenge entry. -/
def verifyTotp (env : Env) (st : AuthState) (totpSessionId totpCode fresh : String) :
    Except AuthError (Bool × AuthState) :=
  match cacheGet st.cache totpSessionId with
  | none => .error .totpSessionNotFound
  | some userId =>
    match jsToNat? userId with
    | none => .error .userNotFound
    | some uid =>
      match getUserById st.users uid with
      | none => .error .userNotFound
      | some user =>
        if ¬ user.totpEnabled ∨ ¬ jsTruthy user.totpSecret ∨ ¬ jsTruthy user.salt then
          .error .totpNotEnabled
        else
          let totpSecret := env.decrypt (user.totpSecret.getD "") (user.salt.getD "")
          if ¬ env.totpCheck totpCode totpSecret then .error .totpInvalidCode
          else .ok (true, setSession st fresh (toString user.id))

/-- `AuthServiceClass.getTotpUri`: refuse in demo mode, verify the password,
refuse when TOTP is already enabled, generate a seed (`newSecret`), reuse or
lazily generate the salt, persist the encrypted seed and salt, and return
the provisioning URI with the raw seed. -/
def getTotpUri (env : Env) (st : AuthState) (userId : Nat) (password : String)
    (newSecret freshSalt : String) :
    Except AuthError ((String × String) × AuthState) :=
  if env.demoMode then .error .notAllowedInDemo
  else
    match getUserById st.users userId with
    | none => .error .userNotFound
    | some user =>
      if ¬ env.verify user.password password then .error .invalidPassword
      else if user.totpEnabled then .error .totpAlreadyEnabled
      else
        let salt := if jsTruthy user.salt then user.salt.getD "" else generateSessionId "" freshSalt
        let enc := env.encrypt newSecret salt
        let users2 := updateUser st.users userId
          (fun u => { u with totpSecret := some enc, salt := some salt })
        .ok ((env.keyuri user.username "Runtipi" newSecret, newSecret),
          { st with users := users2 })

/-- `AuthServiceClass.setupTotp`: refuse in demo mode, require an un-enabled
user with a stored secret and salt, check the code against the decrypted
seed, and flip `totpEnabled` to true. -/
def setupTotp (env : Env) (st : AuthState) (userId : Nat) (totpCode : String) :
    Except AuthError (Bool × AuthState) :=
  if env.demoMode then .error .notAllowedInDemo
  else
    match getUserById st.users userId with
    | none => .error .userNotFound
    | some user =>
      if user.totpEnabled ∨ ¬ jsTruthy user.totpSecret ∨ ¬ jsTruthy user.salt then
        .error .totpAlreadyEnabled
      else
        let totpSecret := env.decrypt (user.totpSecret.getD "") (user.salt.getD "")
        if ¬ env.totpCheck totpCode totpSecret then .error .totpInvalidCode
        else .ok (true,
          { st with users := updateUser st.users userId (fun u => { u with totpEnabled := true }) })

/-- `AuthServiceClass.disableTotp`: require TOTP enabled and a valid
password, then clear `totpEnabled` and `totpSecret` in one update. -/
def disableTotp (env : Env) (st : AuthState) (userId : Nat) (password : String) :
    Except AuthError (Bool × AuthState) :=
  match getUserById st.users userId with
  | none => .error .userNotFound
  | some user =>
    if ¬ user.totpEnabled then .error .totpNotEnabled
    else if ¬ env.verify user.password password then .error .invalidPassword
    else
      let users2 := updateUser st.users userId
        (fun u => { u with totpEnabled := false, totpSecret := none })
      .ok (true, { st with users := users2 })

/-- `AuthServiceClass.register`: refuse as soon as any operator row exists;
normalize the username, validate presence, length and email shape, refuse a
taken username, hash the password, create the operator row (fresh id
`newId`) and open a session for it. -/
def register (env : Env) (st : AuthState) (username password : String)
    (locale : Option String) (newId : Nat) (fresh : String) :
    Except AuthError (Bool × AuthState) :=
  if (getOperators st.users).length > 0 then .error .adminAlreadyExists
  else
    let email := jsToLower (jsTrim username)
    if username = "" ∨ password = "" then .error .missingEmailOrPassword
    else if username.length < 3 ∨ ¬ env.isEmail email then .error .invalidUsername
    else
      match getUserByUsername st.users email with
      | some _ => .error .userAlreadyExists
      | none =>
        let newUser : User :=
          { id := newId, username := email, password := env.hashPw password,
            totpEnabled := false, totpSecret := none, salt := none,
            operator := true, locale := env.localeOf locale }
        let st1 := { st with users := st.users ++ [newUser] }
        .ok (true, setSession st1 fresh (toString newId))

/-- `AuthServiceClass.logout`: delete the primary cache entry
`session:<sessionId>` and return true. -/
def logout (st : AuthState) (sessionId : String) : Bool × AuthState :=
  (true, { st with cache := cacheDel st.cache ("session:" ++ sessionId) })

/-- `AuthServiceClass.isConfigured`: true iff an operator row exists. -/
def isConfigured (st : AuthState) : Bool :=
  (getOperators st.users).length > 0

/-- `AuthServiceClass.checkPasswordChangeRequest`: true iff the
`/runtipi/state/password-change-request` marker file exists. -/
def checkPasswordChangeRequest (st : AuthState) : Bool :=
  st.marker

/-- `AuthServiceClass.changeOperatorPassword` (the completePasswordReset
operation): require the marker file, load the first operator, persist the
new hash while clearing `totpEnabled` and `totpSecret`, delete the marker
file, and return the operator's username. -/
def changeOperatorPassword (env : Env) (st : AuthState) (newPassword : String) :
    Except AuthError (String × AuthState) :=
  if ¬ checkPasswordChangeRequest st then .error .noChangePasswordRequest
  else
    match getFirstOperator st.users with
    | none => .error .operatorNotFound
    | some user =>
      .ok (user.username,
        { st with
          users := updateUser st.users user.id
            (fun u => { u with password := env.hashPw newPassword,
                               totpEnabled := false, totpSecret := none }),
          marker := false })

/-- `AuthServiceClass.cancelPasswordChangeRequest`: remove the marker file
when present. -/
def cancelPasswordChangeRequest (st : AuthState) : Bool × AuthState :=
  (true, { st with marker := false })

/-- One step of the revoke-all sweep: delete the enumerated entry's key,
and (when its value is truthy) the key its value names. -/
def sweepStep (c : List (String × String)) (s : String × String) : List (String × String) :=
  let c1 := cacheDel c s.1
  if s.2 = "" then c1 else cacheDel c1 s.2

/-- `AuthServiceClass.destroyAllSessionsByUserId`: enumerate the cache
entries under `session:<userId>:`, and delete each entry's key and (when
its value is truthy) the key its value names. -/
def destroyAllSessionsByUserId (st : AuthState) (userId : Nat) : AuthState :=
  let sessions := cacheGetPre st.cache ("session:" ++ toString userId ++ ":")
  { st with cache := sessions.foldl sweepStep st.cache }

/-- `AuthServiceClass.changePassword`: refuse in demo mode, verify the
current password, require the new one to have length at least 8, persist
the new hash, then destroy every session of the user. -/
def changePassword (env : Env) (st : AuthState) (userId : Nat)
    (currentPassword newPassword : String) :
    Except AuthError (Bool × AuthState) :=
  if env.demoMode then .error .notAllowedInDemo
  else
    match getUserById st.users userId with
    | none => .error .userNotFound
    | some user =>
      if ¬ env.verify user.password currentPassword then .error .invalidPassword
      else if newPassword.length < 8 then .error .invalidPasswordLength
      else
        let users2 := updateUser st.users user.id
          (fun u => { u with password := env.hashPw newPassword })
        .ok (true, destroyAllSessionsByUserId { st with users := users2 } user.id)

/-- `AuthServiceClass.changeUsername`: refuse in demo mode, verify the
password, normalize and validate the new username, refuse when it is
already taken, persist the new username, then destroy every session of the
user. -/
def changeUsername (env : Env) (st : AuthState) (userId : Nat)
    (newUsername password : String) :
    Except AuthError (Bool × AuthState) :=
  if env.demoMode then .error .notAllowedInDemo
  else
    match getUserById st.users userId with
    | none => .error .userNotFound
    | some user =>
      if ¬ env.verify user.password password then .error .invalidPassword
      else
        let email := jsToLower (jsTrim newUsername)
        if ¬ env.isEmail email then .error .invalidUsername
        else
          match getUserByUsername st.users email with
          | some _ => .error .userAlreadyExists
          | none =>
            let users2 := updateUser st.users user.id
              (fun u => { u with username := email })
            .ok (true, destroyAllSessionsByUserId { st with users := users2 } user.id)

/-- `AuthServiceClass.changeLocale`: require a supported locale and persist
it. -/
def changeLocale (env : Env) (st : AuthState) (userId : Nat) (locale : String) :
    Except AuthError (Bool × AuthState) :=
  if ¬ env.isLocaleValid locale then .error .invalidLocale
  else
    match getUserById st.users userId with
    | none => .error .userNotFound
    | some user =>
      let users2 := updateUser st.users user.id (fun u => { u with locale := locale })
      .ok (true, { st with users := users2 })

/-- The state a successful `changePassword` leaves behind: the stored hash
updated, then the revoke-all sweep for the user. -/
def afterPasswordChange (env : Env) (st : AuthState) (uid : Nat) (newPassword : String) :
    AuthState :=
  let users2 := updateUser st.users uid
    (fun u => { u with password := env.hashPw newPassword })
  destroyAllSessionsByUserId { st with users := users2 } uid

/-- The state a successful `changeUsername` leaves behind: the username
updated, then the revoke-all sweep for the user. -/
def afterUsernameChange (st : AuthState) (uid : Nat) (email : String) : AuthState :=
  let users2 := updateUser st.users uid (fun u => { u with username := email })
  destroyAllSessionsByUserId { st with users := users2 } uid

/-- The state a successful `changeOperatorPassword` leaves behind: new
hash, TOTP enrollment cleared, marker file deleted. -/
def afterOperatorReset (env : Env) (st : AuthState) (uid : Nat) (newPassword : String) :
    AuthState :=
  let users2 := updateUser st.users uid (fun u =>
    { u with password := env.hashPw newPassword, totpEnabled := false, totpSecret := none })
  { st with users := users2, marker := false }

/-- The empty initial state: no users, no sessions, no marker file. -/
def stE : AuthState :=
  { users := [], cache := [], marker := false }

/-- The user row created by a successful `register` of `x@y.com` with id 9
under `env0`. -/
def regUser : User :=
  { id := 9, username := "x@y.com", password := "H:password9", totpEnabled := false,
    totpSecret := none, salt := none, operator := true, locale := "en" }

/-- The state reached by that successful `register` from `stE`. -/
def stReg : AuthState :=
  setSession { users := [regUser], cache := [], marker := false } "f9" "9"

/-- The state an operation leaves behind: the new state on success, the
initial state on a thrown error (the source throws before mutating). -/
def stateAfter {α : Type} (st : AuthState) : Except AuthError (α × AuthState) → AuthState
  | .ok (_, st2) => st2
  | .error _ => st

/-- The TOTP enrollment invariant of the user table (spec §3):
`totpEnabled = true` implies both `totpSecret` and `salt` are non-null. -/
def totpInv (u : User) : Prop :=
  u.totpEnabled = true → u.totpSecret ≠ none ∧ u.salt ≠ none

/-- The TOTP enrollment invariant, for every row of the user table. -/
def usersInv (users : List User) : Prop :=
  ∀ u ∈ users, totpInv u

instance (u : User) : Decidable (totpInv u) := by
  unfold totpInv
  infer_instance

instance (users : List User) : Decidable (usersInv users) := by
  unfold usersInv
  infer_instance

/-- A concrete environment for evaluating the operations: argon2 is the
tagging function `H:`, the codec maps the stored ciphertext `ENC` under
salt `SALT` to the seed `SEED`, and the only accepted TOTP code for that
seed is `123456`. -/
def env0 : Env where
  demoMode := false
  verify := fun h p => h == "H:" ++ p
  hashPw := fun p => "H:" ++ p
  decrypt := fun c s => if c == "ENC" && s == "SALT" then "SEED" else "BAD"
  encrypt := fun sec salt => sec ++ "#" ++ salt
  totpCheck := fun code sec => code == "123456" && sec == "SEED"
  keyuri := fun u i s => u ++ "|" ++ i ++ "|" ++ s
  isEmail := fun s => s.data.contains '@'
  localeOf := fun o => o.getD "en"
  isLocaleValid := fun l => l == "en"

/-- A TOTP-enrolled operator user. -/
def userT : User :=
  { id := 1, username := "a@b.com", password := "H:password1", totpEnabled := true,
    totpSecret := some "ENC", salt := some "SALT", operator := true, locale := "en" }

/-- A plain user without TOTP. -/
def userP : User :=
  { id := 2, username := "c@d.com", password := "H:password2", totpEnabled := false,
    totpSecret := none, salt := none, operator := false, locale := "en" }

/-- A user with a stored TOTP secret that is not yet enabled. -/
def userS : User :=
  { id := 3, username := "e@f.com", password := "H:password3", totpEnabled := false,
    totpSecret := some "ENC", salt := some "SALT", operator := false, locale := "en" }

/-- State with the enrolled operator and a pending login challenge `otp1`. -/
def st0 : AuthState :=
  { users := [userT], cache := [("otp1", "1")], marker := false }

/-- State with both users and an empty cache. -/
def stL : AuthState :=
  { users := [userT, userP], cache := [], marker := false }

/-- State with the plain user holding one live session `s1`. -/
def stS : AuthState :=
  { users := [userT, userP],
    cache := [("session:s1", "2"), ("session:2:s1", "session:s1")],
    marker := false }

/-- State with the operator and the password-reset marker file present. -/
def stM : AuthState :=
  { users := [userT], cache := [], marker := true }

/-- State with the half-enrolled user. -/
def stX : AuthState :=
  { users := [userS], cache := [], marker := false }

/-- The state reached by a successful `setupTotp` for user 3 from `stX`. -/
def stY : AuthState :=
  { stX with users := updateUser stX.users 3 (fun u => { u with totpEnabled := true }) }

theorem find?_filter_ne (c : List (String × String)) (k k2 : String) (h : k ≠ k2) :
    (c.filter (fun p => p.1 ≠ k2)).find? (fun p => p.1 = k) =
      c.find? (fun p => p.1 = k) := by
  induction c with
  | nil => rfl
  | cons a t ih =>
    by_cases h2 : a.1 = k2
    · rw [List.filter_cons_of_neg (by simp [h2])]
      rw [List.find?_cons_of_neg _ (by simp [h2]; exact fun hk => h hk.symm)]
      exact ih
    · rw [List.filter_cons_of_pos (by simp [h2])]
      by_cases h3 : a.1 = k
      · rw [List.find?_cons_of_pos _ (by simp [h3]), List.find?_cons_of_pos _ (by simp [h3])]
      · rw [List.find?_cons_of_neg _ (by simp [h3]), List.find?_cons_of_neg _ (by simp [h3])]
        exact ih

theorem cacheGet_set_self (c : List (String × String)) (k v : String) :
    cacheGet (cacheSet c k v) k = some v := by
  simp [cacheGet, cacheSet]

theorem cacheGet_set_ne (c : List (String × String)) (k v k2 : String) (h : k2 ≠ k) :
    cacheGet (cacheSet c k v) k2 = cacheGet c k2 := by
  unfold cacheGet cacheSet
  rw [List.find?_cons_of_neg _ (by simp; exact fun hk => h hk.symm)]
  rw [find?_filter_ne c k2 k h]

theorem cacheGet_del_self (c : List (String × String)) (k : String) :
    cacheGet (cacheDel c k) k = none := by
  unfold cacheGet cacheDel
  rw [Option.map_eq_none', List.find?_eq_none]
  intro x hx
  rcases List.mem_filter.mp hx with ⟨_, hne⟩
  simpa using hne

theorem cacheGet_del_ne (c : List (String × String)) (k k2 : String) (h : k ≠ k2) :
    cacheGet (cacheDel c k2) k = cacheGet c k := by
  unfold cacheGet cacheDel
  rw [find?_filter_ne c k k2 h]

theorem cacheGet_del_none (c : List (String × String)) (k k2 : String)
    (h : cacheGet c k = none) : cacheGet (cacheDel c k2) k = none := by
  by_cases hk : k = k2
  · subst hk; exact cacheGet_del_self c k
  · rw [cacheGet_del_ne c k k2 hk]; exact h

theorem cacheGet_sweepStep_none (c : List (String × String)) (s : String × String)
    (k : String) (h : cacheGet c k = none) : cacheGet (sweepStep c s) k = none := by
  unfold sweepStep
  by_cases hs : s.2 = ""
  · simp only [hs, if_pos rfl]
    exact cacheGet_del_none _ _ _ h
  · rw [if_neg hs]
    exact cacheGet_del_none _ _ _ (cacheGet_del_none _ _ _ h)

theorem cacheGet_sweep_none (l : List (String × String)) (c : List (String × String))
    (k : String) (h : cacheGet c k = none) : cacheGet (l.foldl sweepStep c) k = none := by
  induction l generalizing c with
  | nil => exact h
  | cons a t ih => exact ih _ (cacheGet_sweepStep_none c a k h)

theorem cacheGet_sweepStep_key (c : List (String × String)) (k v : String) (hv : v ≠ "") :
    cacheGet (sweepStep c (k, v)) k = none := by
  simp only [sweepStep, if_neg hv]
  exact cacheGet_del_none _ _ _ (cacheGet_del_self c k)

theorem cacheGet_sweepStep_val (c : List (String × String)) (k v : String) (hv : v ≠ "") :
    cacheGet (sweepStep c (k, v)) v = none := by
  simp only [sweepStep, if_neg hv]
  exact cacheGet_del_self _ v

theorem sweep_deletes_mem (l : List (String × String)) (c : List (String × String))
    (k v : String) (hmem : (k, v) ∈ l) (hv : v ≠ "") :
    cacheGet (l.foldl sweepStep c) k = none ∧ cacheGet (l.foldl sweepStep c) v = none := by
  induction l generalizing c with
  | nil => cases hmem
  | cons a t ih =>
    rw [List.foldl_cons]
    rcases List.mem_cons.mp hmem with heq | hmem2
    · rw [← heq]
      exact ⟨cacheGet_sweep_none t _ k (cacheGet_sweepStep_key c k v hv),
        cacheGet_sweep_none t _ v (cacheGet_sweepStep_val c k v hv)⟩
    · exact ih (sweepStep c a) hmem2

theorem isPrefixOf_append_self (l1 l2 : List Char) : l1.isPrefixOf (l1 ++ l2) = true := by
  simp

theorem strHasPre_append_self (pre rest : String) : strHasPre pre (pre ++ rest) = true := by
  unfold strHasPre
  rw [String.data_append]
  exact isPrefixOf_append_self pre.data rest.data

theorem session_key_ne_empty (s : String) : "session:" ++ s ≠ "" := by
  intro h
  have h2 := congrArg String.length h
  rw [String.length_append] at h2
  have h8 : ("session:").length = 8 := rfl
  have h0 : ("" : String).length = 0 := rfl
  rw [h8, h0] at h2
  omega

theorem otp_key_ne_session_key (f s : String) : ("otp" ++ f) ≠ ("session:" ++ s) := by
  intro h
  have h2 := congrArg String.data h
  rw [String.data_append, String.data_append] at h2
  have e1 : ("otp").data = ['o', 't', 'p'] := rfl
  have e2 : ("session:").data = ['s', 'e', 's', 's', 'i', 'o', 'n', ':'] := rfl
  rw [e1, e2] at h2
  simp at h2

theorem tracking_ne_primary (u sid : String) :
    ("session:" ++ u ++ ":" ++ sid) ≠ ("session:" ++ sid) := by
  intro h
  have h2 := congrArg String.length h
  rw [String.length_append, String.length_append, String.length_append,
    String.length_append] at h2
  have h1 : (":").length = 1 := rfl
  rw [h1] at h2
  omega

theorem tracking_eq_append (u sid : String) :
    ("session:" ++ u ++ ":" ++ sid) = "session:" ++ (u ++ (":" ++ sid)) := by
  rw [String.append_assoc, String.append_assoc]

theorem cacheGet_setSession_self (st : AuthState) (sid uid : String) :
    cacheGet (setSession st sid uid).cache ("session:" ++ sid) = some uid := by
  show cacheGet (cacheSet (cacheSet st.cache ("session:" ++ sid) uid)
    ("session:" ++ uid ++ ":" ++ sid) ("session:" ++ sid)) ("session:" ++ sid) = some uid
  rw [cacheGet_set_ne _ _ _ _ (Ne.symm (tracking_ne_primary uid sid))]
  exact cacheGet_set_self _ _ _

theorem cacheGet_setSession_track (st : AuthState) (sid uid : String) :
    cacheGet (setSession st sid uid).cache ("session:" ++ uid ++ ":" ++ sid) =
      some ("session:" ++ sid) := by
  show cacheGet (cacheSet (cacheSet st.cache ("session:" ++ sid) uid)
    ("session:" ++ uid ++ ":" ++ sid) ("session:" ++ sid))
    ("session:" ++ uid ++ ":" ++ sid) = some ("session:" ++ sid)
  exact cacheGet_set_self _ _ _

theorem cacheGet_setSession_other (st : AuthState) (sid uid k : String)
    (h1 : k ≠ "session:" ++ sid) (h2 : k ≠ "session:" ++ uid ++ ":" ++ sid) :
    cacheGet (setSession st sid uid).cache k = cacheGet st.cache k := by
  show cacheGet (cacheSet (cacheSet st.cache ("session:" ++ sid) uid)
    ("session:" ++ uid ++ ":" ++ sid) ("session:" ++ sid)) k = cacheGet st.cache k
  rw [cacheGet_set_ne _ _ _ _ h2, cacheGet_set_ne _ _ _ _ h1]

theorem setSession_users (st : AuthState) (sid uid : String) :
    (setSession st sid uid).users = st.users := rfl

theorem getUserById_eq (users : List User) (id : Nat) (u : User)
    (h : getUserById users id = some u) : u ∈ users ∧ u.id = id := by
  unfold getUserById at h
  exact ⟨List.mem_of_find?_eq_some h, by simpa using List.find?_some h⟩

theorem getUserByUsername_eq (users : List User) (name : String) (u : User)
    (h : getUserByUsername users name = some u) : u ∈ users ∧ u.username = name := by
  unfold getUserByUsername at h
  exact ⟨List.mem_of_find?_eq_some h, by simpa using List.find?_some h⟩

theorem getFirstOperator_eq (users : List User) (u : User)
    (h : getFirstOperator users = some u) : u ∈ users ∧ u.operator = true := by
  unfold getFirstOperator at h
  exact ⟨List.mem_of_find?_eq_some h, by simpa using List.find?_some h⟩

theorem mem_updateUser (users : List User) (id : Nat) (f : User → User) (u : User)
    (hu : u ∈ updateUser users id f) :
    (∃ u0, u0 ∈ users ∧ u0.id = id ∧ u = f u0) ∨ (u ∈ users ∧ u.id ≠ id) := by
  unfold updateUser at hu
  rcases List.mem_map.mp hu with ⟨u0, hu0, heq⟩
  by_cases h : u0.id = id
  · exact Or.inl ⟨u0, hu0, h, by rw [← heq, if_pos h]⟩
  · refine Or.inr ?_
    rw [← heq, if_neg h]
    exact ⟨hu0, h⟩

theorem usersInv_updateUser (users : List User) (id : Nat) (f : User → User)
    (hinv : usersInv users)
    (hf : ∀ u0, u0 ∈ users → u0.id = id → totpInv (f u0)) :
    usersInv (updateUser users id f) := by
  intro u hu
  rcases mem_updateUser users id f u hu with ⟨u0, h0, hid, rfl⟩ | ⟨h1, _⟩
  · exact hf u0 h0 hid
  · exact hinv u h1

/-- C10: `logout sessionId` returns true and deletes exactly the primary
cache entry `session:<sessionId>`: every other key — in particular the
user-scoped tracking key `session:<userId>:<sessionId>` of that very
session, for any user id — still resolves exactly as before the call. -/
theorem logout_frame (st : AuthState) (sessionId : String) :
    logout st sessionId =
      (true, { st with cache := cacheDel st.cache ("session:" ++ sessionId) }) ∧
    cacheGet (logout st sessionId).2.cache ("session:" ++ sessionId) = none ∧
    (∀ k, k ≠ "session:" ++ sessionId →
      cacheGet (logout st sessionId).2.cache k = cacheGet st.cache k) ∧
    (∀ uid, cacheGet (logout st sessionId).2.cache ("session:" ++ uid ++ ":" ++ sessionId) =
      cacheGet st.cache ("session:" ++ uid ++ ":" ++ sessionId)) := by
  refine ⟨rfl, cacheGet_del_self _ _, ?_, ?_⟩
  · intro k hk
    exact cacheGet_del_ne _ _ _ hk
  · intro uid
    exact cacheGet_del_ne _ _ _ (tracking_ne_primary uid sessionId)

/-- Witness for C10 at a concrete state: logging out session `s1` of user 2
returns true, removes the primary entry, and leaves the tracking entry
`session:2:s1` in the cache. -/
theorem logout_frame_witness :
    (logout stS "s1").1 = true ∧
    cacheGet (logout stS "s1").2.cache ("session:" ++ "s1") = none ∧
    cacheGet (logout stS "s1").2.cache ("session:" ++ "2" ++ ":" ++ "s1") =
      some "session:s1" := by
  have h := logout_frame stS "s1"
  exact ⟨congrArg Prod.fst h.1, h.2.1, (h.2.2.2 "2").trans (by decide)⟩

/-- C8: `changeUsername` to an address already owned by another user fails
with UserAlreadyExists, and — errors being thrown before any mutation —
the caller's user record (its username included) and all sessions are
exactly as before the call. -/
theorem changeUsername_taken_is_noop (env : Env) (st : AuthState) (userId : Nat)
    (newUsername password : String) (user other : User)
    (hd : env.demoMode = false)
    (hu : getUserById st.users userId = some user)
    (hpw : env.verify user.password password = true)
    (hmail : env.isEmail (jsToLower (jsTrim newUsername)) = true)
    (hex : getUserByUsername st.users (jsToLower (jsTrim newUsername)) = some other) :
    changeUsername env st userId newUsername password = .error .userAlreadyExists ∧
    stateAfter st (changeUsername env st userId newUsername password) = st := by
  have hres : changeUsername env st userId newUsername password =
      .error .userAlreadyExists := by
    simp [changeUsername, hd, hu, hpw, hmail, hex]
  exact ⟨hres, by rw [hres]; rfl⟩

/-- Witness for C8: user 2 tries to take the username `a@b.com`, which
belongs to user 1; the call fails with UserAlreadyExists and the state is
unchanged. -/
theorem changeUsername_taken_is_noop_witness :
    changeUsername env0 stL 2 "a@b.com" "password2" = .error .userAlreadyExists ∧
    stateAfter stL (changeUsername env0 stL 2 "a@b.com" "password2") = stL :=
  changeUsername_taken_is_noop env0 stL 2 "a@b.com" "password2" userP userT
    (by decide) (by decide) (by decide) (by decide) (by decide)

/-- C2: with correct credentials, `login` of a user without TOTP returns a
session id and writes only the two session entries (no challenge key is
touched), while `login` of a TOTP-enabled user returns a challenge id
`otp<fresh>` mapped in the cache to the user's id and writes no session
entry. -/
theorem login_branches (env : Env) (st : AuthState) (username password fresh : String)
    (user : User)
    (hu : getUserByUsername st.users username = some user)
    (hpw : env.verify user.password password = true) :
    (user.totpEnabled = false →
      login env st username password fresh =
        .ok (.session fresh, setSession st fresh (toString user.id)) ∧
      cacheGet (setSession st fresh (toString user.id)).cache ("session:" ++ fresh) =
        some (toString user.id) ∧
      (∀ c, cacheGet (setSession st fresh (toString user.id)).cache ("otp" ++ c) =
        cacheGet st.cache ("otp" ++ c))) ∧
    (user.totpEnabled = true →
      login env st username password fresh =
        .ok (.totp ("otp" ++ fresh),
          { st with cache := cacheSet st.cache ("otp" ++ fresh) (toString user.id) }) ∧
      cacheGet (cacheSet st.cache ("otp" ++ fresh) (toString user.id)) ("otp" ++ fresh) =
        some (toString user.id) ∧
      (∀ s, cacheGet (cacheSet st.cache ("otp" ++ fresh) (toString user.id))
        ("session:" ++ s) = cacheGet st.cache ("session:" ++ s))) := by
  constructor
  · intro hT
    refine ⟨by simp [login, hu, hpw, hT], cacheGet_setSession_self st fresh _, ?_⟩
    intro c
    refine cacheGet_setSession_other st fresh (toString user.id) ("otp" ++ c)
      (otp_key_ne_session_key c fresh) ?_
    intro h
    exact otp_key_ne_session_key c _ (h.trans (tracking_eq_append _ _))
  · intro hT
    refine ⟨by simp [login, hu, hpw, hT, generateSessionId], cacheGet_set_self _ _ _, ?_⟩
    intro s
    exact cacheGet_set_ne _ _ _ _ (Ne.symm (otp_key_ne_session_key fresh s))

/-- Witness for C2: user 2 (no TOTP) gets a session id, user 1 (TOTP
enabled) gets a challenge id mapped to "1". -/
theorem login_branches_witness :
    (login env0 stL "c@d.com" "password2" "f2" =
      .ok (.session "f2", setSession stL "f2" (toString userP.id)) ∧
     cacheGet (setSession stL "f2" (toString userP.id)).cache ("session:" ++ "f2") =
      some (toString userP.id)) ∧
    (login env0 stL "a@b.com" "password1" "f1" =
      .ok (.totp ("otp" ++ "f1"),
        { stL with cache := cacheSet stL.cache ("otp" ++ "f1") (toString userT.id) }) ∧
     cacheGet (cacheSet stL.cache ("otp" ++ "f1") (toString userT.id)) ("otp" ++ "f1") =
      some (toString userT.id)) := by
  have h2 := (login_branches env0 stL "c@d.com" "password2" "f2" userP
    (by decide) (by decide)).1 (by decide)
  have h1 := (login_branches env0 stL "a@b.com" "password1" "f1" userT
    (by decide) (by decide)).2 (by decide)
  exact ⟨⟨h2.1, h2.2.1⟩, ⟨h1.1, h1.2.1⟩⟩

theorem verifyTotp_result (env : Env) (st : AuthState) (id code fresh uid : String)
    (hres : cacheGet st.cache id = some uid) :
    (∃ e, e ≠ AuthError.totpSessionNotFound ∧
      verifyTotp env st id code fresh = .error e) ∨
    (∃ n user, jsToNat? uid = some n ∧ getUserById st.users n = some user ∧
      verifyTotp env st id code fresh = .ok (true, setSession st fresh (toString user.id))) := by
  rcases htn : jsToNat? uid with - | n
  · exact Or.inl ⟨.userNotFound, by decide, by simp [verifyTotp, hres, htn]⟩
  · rcases hgu : getUserById st.users n with - | user
    · exact Or.inl ⟨.userNotFound, by decide, by simp [verifyTotp, hres, htn, hgu]⟩
    · by_cases he : (¬ user.totpEnabled = true ∨ ¬ jsTruthy user.totpSecret = true ∨
        ¬ jsTruthy user.salt = true)
      · exact Or.inl ⟨.totpNotEnabled, by decide,
          by simp only [verifyTotp, hres, htn, hgu]; rw [if_pos he]⟩
      · by_cases hc : (¬ env.totpCheck code
            (env.decrypt (user.totpSecret.getD "") (user.salt.getD "")) = true)
        · exact Or.inl ⟨.totpInvalidCode, by decide,
            by simp only [verifyTotp, hres, htn, hgu]; rw [if_neg he, if_pos hc]⟩
        · exact Or.inr ⟨n, user, rfl, hgu,
            by simp only [verifyTotp, hres, htn, hgu]; rw [if_neg he, if_neg hc]⟩

/-- C1 (amended): `verifyTotp` never removes the challenge from the cache.
When the challenge id resolves to a user id, the call does not fail with
ChallengeNotFound, and whatever its outcome the challenge entry is still
present afterwards with the same user id, so a second call with the same
challenge id again does not fail with ChallengeNotFound. -/
theorem verifyTotp_challenge_retained (env : Env) (st : AuthState)
    (id code fresh uid : String)
    (hres : cacheGet st.cache id = some uid)
    (hid : ∀ s, id ≠ "session:" ++ s) :
    verifyTotp env st id code fresh ≠ .error .totpSessionNotFound ∧
    (∀ b st2, verifyTotp env st id code fresh = .ok (b, st2) →
      cacheGet st2.cache id = some uid ∧
      ∀ code2 fresh2, verifyTotp env st2 id code2 fresh2 ≠ .error .totpSessionNotFound) := by
  have hcase := verifyTotp_result env st id code fresh uid hres
  constructor
  · rcases hcase with ⟨e, hne, heq⟩ | ⟨n, user, _, _, heq⟩
    · rw [heq]
      intro h
      injection h with h2
      exact hne h2
    · rw [heq]
      exact fun h => Except.noConfusion h
  · intro b st2 hok
    rcases hcase with ⟨e, hne, heq⟩ | ⟨n, user, htn, hgu, heq⟩
    · rw [heq] at hok
      exact Except.noConfusion hok
    · rw [heq] at hok
      injection hok with hp
      injection hp with hb hst
      subst hst
      have hres2 : cacheGet (setSession st fresh (toString user.id)).cache id = some uid := by
        rw [cacheGet_setSession_other st fresh (toString user.id) id (hid fresh)
          (fun h => hid _ (h.trans (tracking_eq_append _ _)))]
        exact hres
      refine ⟨hres2, ?_⟩
      intro code2 fresh2
      rcases verifyTotp_result env _ id code2 fresh2 uid hres2 with
        ⟨e2, hne2, heq2⟩ | ⟨n2, user2, _, _, heq2⟩
      · rw [heq2]
        intro h
        injection h with h2
        exact hne2 h2
      · rw [heq2]
        exact fun h => Except.noConfusion h

/-- Witness for the amended C1 at a concrete state: the challenge `otp1`
resolves to user 1; after a successful `verifyTotp` the challenge is still
cached and a second call does not fail with ChallengeNotFound. -/
theorem verifyTotp_challenge_retained_witness :
    verifyTotp env0 st0 "otp1" "123456" "f1" ≠ .error .totpSessionNotFound ∧
    (cacheGet (setSession st0 "f1" "1").cache "otp1" = some "1" ∧
      ∀ code2 fresh2,
        verifyTotp env0 (setSession st0 "f1" "1") "otp1" code2 fresh2 ≠
          .error .totpSessionNotFound) := by
  have h := verifyTotp_challenge_retained env0 st0 "otp1" "123456" "f1" "1"
    (by decide) (fun s hs => by
      have h2 := congrArg String.length hs
      rw [String.length_append] at h2
      have h4 : ("otp1").length = 4 := rfl
      have h8 : ("session:").length = 8 := rfl
      rw [h4, h8] at h2
      omega)
  exact ⟨h.1, h.2 true (setSession st0 "f1" "1") rfl⟩

/-- Counterexample to C1 as stated: the code never deletes the cache entry
of a resolved challenge. With challenge `otp1` → user 1, a first
`verifyTotp` succeeds, the challenge entry is still present afterwards, and
a second call with the same challenge id succeeds again instead of failing
with ChallengeNotFound. -/
theorem verifyTotp_reuse_cex :
    verifyTotp env0 st0 "otp1" "123456" "f1" =
      .ok (true, setSession st0 "f1" "1") ∧
    cacheGet (setSession st0 "f1" "1").cache "otp1" = some "1" ∧
    verifyTotp env0 (setSession st0 "f1" "1") "otp1" "123456" "f2" =
      .ok (true, setSession (setSession st0 "f1" "1") "f2" "1") := by
  exact ⟨rfl, by decide, rfl⟩

/-- C6 (amended): for a valid challenge, an enabled user and a valid code,
`verifyTotp` does issue a real session — both the primary and the tracking
entry are written for the fresh session id — but its return value is the
boolean `true`, not the session id. -/
theorem verifyTotp_issues_session (env : Env) (st : AuthState)
    (id code fresh uid : String) (n : Nat) (user : User) (sec sal : String)
    (hres : cacheGet st.cache id = some uid)
    (htn : jsToNat? uid = some n)
    (hgu : getUserById st.users n = some user)
    (hen : user.totpEnabled = true)
    (hsec : user.totpSecret = some sec) (hsec2 : sec ≠ "")
    (hsal : user.salt = some sal) (hsal2 : sal ≠ "")
    (hcode : env.totpCheck code (env.decrypt sec sal) = true) :
    verifyTotp env st id code fresh = .ok (true, setSession st fresh (toString user.id)) ∧
    cacheGet (setSession st fresh (toString user.id)).cache ("session:" ++ fresh) =
      some (toString user.id) ∧
    cacheGet (setSession st fresh (toString user.id)).cache
      ("session:" ++ toString user.id ++ ":" ++ fresh) = some ("session:" ++ fresh) := by
  refine ⟨?_, cacheGet_setSession_self st fresh (toString user.id),
    cacheGet_setSession_track st fresh (toString user.id)⟩
  simp only [verifyTotp, hres, htn, hgu]
  rw [if_neg (by simp [hen, jsTruthy, hsec, hsal, hsec2, hsal2])]
  rw [hsec, hsal]
  simp only [Option.getD_some]
  rw [if_neg (by simp [hcode])]

/-- Witness for the amended C6: user 1's challenge with the valid code
creates session `f1` (both entries) and the call returns true. -/
theorem verifyTotp_issues_session_witness :
    verifyTotp env0 st0 "otp1" "123456" "f1" =
      .ok (true, setSession st0 "f1" (toString userT.id)) ∧
    cacheGet (setSession st0 "f1" (toString userT.id)).cache ("session:" ++ "f1") =
      some (toString userT.id) ∧
    cacheGet (setSession st0 "f1" (toString userT.id)).cache
      ("session:" ++ toString userT.id ++ ":" ++ "f1") = some ("session:" ++ "f1") :=
  verifyTotp_issues_session env0 st0 "otp1" "123456" "f1" "1" 1 userT "ENC" "SALT"
    (by decide) (by decide) (by decide) (by decide) (by decide) (by decide)
    (by decide) (by decide) (by decide)

/-- Counterexample to C6 as stated: two calls differing only in the fresh
session id both return the constant `true`; the returned value does not
carry the id of the session that was created, so `verifyTotp` does not
"return the session id". -/
theorem verifyTotp_returns_constant_cex :
    verifyTotp env0 st0 "otp1" "123456" "sA" = .ok (true, setSession st0 "sA" "1") ∧
    verifyTotp env0 st0 "otp1" "123456" "sB" = .ok (true, setSession st0 "sB" "1") ∧
    cacheGet (setSession st0 "sA" "1").cache "session:sA" = some "1" ∧
    cacheGet (setSession st0 "sB" "1").cache "session:sB" = some "1" := by
  exact ⟨rfl, rfl, by decide, by decide⟩

theorem destroy_deletes (st : AuthState) (uid : Nat) (sid : String)
    (htrack : cacheGet st.cache ("session:" ++ toString uid ++ ":" ++ sid) =
      some ("session:" ++ sid)) :
    cacheGet (destroyAllSessionsByUserId st uid).cache
      ("session:" ++ toString uid ++ ":" ++ sid) = none ∧
    cacheGet (destroyAllSessionsByUserId st uid).cache ("session:" ++ sid) = none := by
  have hfind0 := htrack
  unfold cacheGet at hfind0
  rcases hfind : st.cache.find?
      (fun p => p.1 = ("session:" ++ toString uid ++ ":" ++ sid)) with - | p
  · rw [hfind] at hfind0
    simp at hfind0
  · rw [hfind] at hfind0
    have hp2 : p.2 = "session:" ++ sid := by simpa using hfind0
    have hp1 : p.1 = "session:" ++ toString uid ++ ":" ++ sid := by
      simpa using List.find?_some hfind
    have hmem : p ∈ st.cache := List.mem_of_find?_eq_some hfind
    have hmem2 : p ∈ cacheGetPre st.cache ("session:" ++ toString uid ++ ":") := by
      refine List.mem_filter.mpr ⟨hmem, ?_⟩
      rw [hp1]
      exact strHasPre_append_self ("session:" ++ toString uid ++ ":") sid
    have hv : p.2 ≠ "" := by rw [hp2]; exact session_key_ne_empty sid
    have hsweep := sweep_deletes_mem
      (cacheGetPre st.cache ("session:" ++ toString uid ++ ":")) st.cache p.1 p.2
      (by exact hmem2) hv
    rw [hp1, hp2] at hsweep
    exact hsweep

/-- C3: a successful `changePassword` or `changeUsername` runs the
revoke-all sweep for the caller: every session of the user recorded by a
tracking entry `session:<id>:<sid>` (whose value names the primary entry)
is removed — both the tracking key and the primary key `session:<sid>` are
absent afterwards, so the session id no longer resolves. -/
theorem change_credentials_revoke (env : Env) (st : AuthState) (userId : Nat)
    (user : User) (sid : String)
    (hu : getUserById st.users userId = some user)
    (htrack : cacheGet st.cache ("session:" ++ toString user.id ++ ":" ++ sid) =
      some ("session:" ++ sid)) :
    (∀ cur new, env.demoMode = false → env.verify user.password cur = true →
      ¬ new.length < 8 →
      changePassword env st userId cur new =
        .ok (true, afterPasswordChange env st user.id new) ∧
      cacheGet (afterPasswordChange env st user.id new).cache
        ("session:" ++ toString user.id ++ ":" ++ sid) = none ∧
      cacheGet (afterPasswordChange env st user.id new).cache
        ("session:" ++ sid) = none) ∧
    (∀ newU pw, env.demoMode = false → env.verify user.password pw = true →
      env.isEmail (jsToLower (jsTrim newU)) = true →
      getUserByUsername st.users (jsToLower (jsTrim newU)) = none →
      changeUsername env st userId newU pw =
        .ok (true, afterUsernameChange st user.id (jsToLower (jsTrim newU))) ∧
      cacheGet (afterUsernameChange st user.id (jsToLower (jsTrim newU))).cache
        ("session:" ++ toString user.id ++ ":" ++ sid) = none ∧
      cacheGet (afterUsernameChange st user.id (jsToLower (jsTrim newU))).cache
        ("session:" ++ sid) = none) := by
  constructor
  · intro cur new hd hv hlen
    exact ⟨by simp [changePassword, afterPasswordChange, hd, hu, hv, hlen],
      (destroy_deletes _ user.id sid htrack).1,
      (destroy_deletes _ user.id sid htrack).2⟩
  · intro newU pw hd hv hmail hfree
    exact ⟨by simp [changeUsername, afterUsernameChange, hd, hu, hv, hmail, hfree],
      (destroy_deletes _ user.id sid htrack).1,
      (destroy_deletes _ user.id sid htrack).2⟩

/-- Witness for C3: user 2 holds session `s1`; changing the password to
`longenough` succeeds and afterwards neither the tracking key
`session:2:s1` nor the primary key `session:s1` resolves. -/
theorem change_credentials_revoke_witness :
    changePassword env0 stS 2 "password2" "longenough" =
      .ok (true, afterPasswordChange env0 stS userP.id "longenough") ∧
    cacheGet (afterPasswordChange env0 stS userP.id "longenough").cache
      ("session:" ++ toString userP.id ++ ":" ++ "s1") = none ∧
    cacheGet (afterPasswordChange env0 stS userP.id "longenough").cache
      ("session:" ++ "s1") = none := by
  exact (change_credentials_revoke env0 stS 2 userP "s1" (by decide) (by decide)).1
    "password2" "longenough" (by decide) (by decide) (by decide)

/-- C4: at most one operator row can ever exist. As soon as any user record
has the operator flag, `register` fails with AdminAlreadyExists whatever
the supplied username and password (no row is created, errors carrying no
state change); and whenever `register` succeeds, the table had zero
operator rows before and has exactly one afterwards. -/
theorem register_operator_unique (env : Env) (st : AuthState)
    (username password : String) (locale : Option String) (newId : Nat) (fresh : String) :
    ((∃ u, u ∈ st.users ∧ u.operator = true) →
      register env st username password locale newId fresh = .error .adminAlreadyExists) ∧
    (∀ r st2, register env st username password locale newId fresh = .ok (r, st2) →
      (getOperators st.users).length = 0 ∧ (getOperators st2.users).length = 1) := by
  constructor
  · rintro ⟨u, hu, hop⟩
    have hlen : (getOperators st.users).length > 0 :=
      List.length_pos_of_mem (List.mem_filter.mpr ⟨hu, by simp [hop]⟩)
    simp [register, hlen]
  · intro r st2 h
    simp only [register] at h
    by_cases hlen : (getOperators st.users).length > 0
    · rw [if_pos hlen] at h
      exact absurd h (by simp)
    · rw [if_neg hlen] at h
      have h0 : (getOperators st.users).length = 0 := Nat.eq_zero_of_not_pos hlen
      refine ⟨h0, ?_⟩
      by_cases h1 : (username = "" ∨ password = "")
      · rw [if_pos h1] at h
        exact absurd h (by simp)
      · rw [if_neg h1] at h
        by_cases h2 : (username.length < 3 ∨ ¬ env.isEmail (jsToLower (jsTrim username)) = true)
        · rw [if_pos h2] at h
          exact absurd h (by simp)
        · rw [if_neg h2] at h
          rcases h3 : getUserByUsername st.users (jsToLower (jsTrim username)) with - | u
          · rw [h3] at h
            simp only [] at h
            injection h with hp
            injection hp with hr hst
            rw [← hst, setSession_users]
            unfold getOperators at h0 ⊢
            rw [List.filter_append, List.length_append, h0]
            simp
          · rw [h3] at h
            exact absurd h (by simp)

/-- Witness for C4: with the operator of `stL` present, registering any
second account fails with AdminAlreadyExists; and from the empty table,
registration succeeds leaving exactly one operator row. -/
theorem register_operator_unique_witness :
    register env0 stL "x@y.com" "password9" none 9 "f9" = .error .adminAlreadyExists ∧
    (getOperators stE.users).length = 0 ∧ (getOperators stReg.users).length = 1 := by
  refine ⟨(register_operator_unique env0 stL "x@y.com" "password9" none 9 "f9").1
    ⟨userT, by decide, by decide⟩, ?_⟩
  exact (register_operator_unique env0 stE "x@y.com" "password9" none 9 "f9").2
    true stReg rfl

/-- C5: `completePasswordReset` (changeOperatorPassword) fails with
NoResetRequestPending when the marker file is absent and with
OperatorNotFound when no operator row exists; when the marker is present
and an operator exists it stores the new hash, sets `totpEnabled` to false
and `totpSecret` to null for the operator, deletes the marker file, and an
immediately following call fails with NoResetRequestPending. -/
theorem changeOperatorPassword_spec (env : Env) (st : AuthState) (newPassword : String) :
    (st.marker = false →
      changeOperatorPassword env st newPassword = .error .noChangePasswordRequest) ∧
    (st.marker = true → getFirstOperator st.users = none →
      changeOperatorPassword env st newPassword = .error .operatorNotFound) ∧
    (∀ user, st.marker = true → getFirstOperator st.users = some user →
      changeOperatorPassword env st newPassword =
        .ok (user.username, afterOperatorReset env st user.id newPassword) ∧
      (∀ u, u ∈ (afterOperatorReset env st user.id newPassword).users → u.id = user.id →
        u.password = env.hashPw newPassword ∧ u.totpEnabled = false ∧
          u.totpSecret = none) ∧
      (afterOperatorReset env st user.id newPassword).marker = false ∧
      (∀ p2, changeOperatorPassword env (afterOperatorReset env st user.id newPassword)
        p2 = .error .noChangePasswordRequest)) := by
  refine ⟨?_, ?_, ?_⟩
  · intro hm
    simp [changeOperatorPassword, checkPasswordChangeRequest, hm]
  · intro hm hop
    simp [changeOperatorPassword, checkPasswordChangeRequest, hm, hop]
  · intro user hm hop
    refine ⟨by simp [changeOperatorPassword, afterOperatorReset,
      checkPasswordChangeRequest, hm, hop], ?_, rfl, ?_⟩
    · intro u hu2 hid2
      rcases mem_updateUser st.users user.id
        (fun u => { u with password := env.hashPw newPassword, totpEnabled := false, totpSecret := none })
        u hu2 with ⟨u0, _, _, rfl⟩ | ⟨_, hne⟩
      · exact ⟨rfl, rfl, rfl⟩
      · exact absurd hid2 hne
    · intro p2
      simp [changeOperatorPassword, checkPasswordChangeRequest, afterOperatorReset]

/-- Witness for C5: with the marker present and operator user 1,
completing the reset returns the operator's email, rewrites the record,
and a second call fails with NoResetRequestPending. -/
theorem changeOperatorPassword_spec_witness :
    changeOperatorPassword env0 stM "freshpass" =
      .ok (userT.username, afterOperatorReset env0 stM userT.id "freshpass") ∧
    changeOperatorPassword env0 (afterOperatorReset env0 stM userT.id "freshpass")
      "again" = .error .noChangePasswordRequest := by
  have h := (changeOperatorPassword_spec env0 stM "freshpass").2.2 userT
    (by decide) (by decide)
  exact ⟨h.1, h.2.2.2 "again"⟩

/-- C9: `changePassword` succeeds exactly under its preconditions — demo
mode off, user found, current password verified, new password at least 8
characters — and then stores the new hash; when the new password is
shorter than 8 while the other preconditions hold, it fails with
PasswordTooShort and the state (the stored hash included) is unchanged. -/
theorem changePassword_spec (env : Env) (st : AuthState) (userId : Nat)
    (currentPassword newPassword : String) :
    (∀ r st2, changePassword env st userId currentPassword newPassword = .ok (r, st2) →
      env.demoMode = false ∧
      ∃ user, getUserById st.users userId = some user ∧
        env.verify user.password currentPassword = true ∧
        ¬ newPassword.length < 8 ∧ r = true ∧
        st2.users = updateUser st.users user.id
          (fun u => { u with password := env.hashPw newPassword })) ∧
    (∀ user, env.demoMode = false →
      getUserById st.users userId = some user →
      env.verify user.password currentPassword = true →
      newPassword.length < 8 →
      changePassword env st userId currentPassword newPassword =
        .error .invalidPasswordLength ∧
      stateAfter st (changePassword env st userId currentPassword newPassword) = st) := by
  constructor
  · intro r st2 h
    simp only [changePassword] at h
    by_cases hd : env.demoMode = true
    · rw [if_pos hd] at h
      exact absurd h (by simp)
    · rw [if_neg hd] at h
      have hd2 : env.demoMode = false := by revert hd; cases env.demoMode <;> simp
      split at h
      · exact absurd h (by simp)
      · rename_i user hg
        by_cases hv : env.verify user.password currentPassword = true
        · rw [if_neg (not_not_intro hv)] at h
          by_cases hlen : newPassword.length < 8
          · rw [if_pos hlen] at h
            exact absurd h (by simp)
          · rw [if_neg hlen] at h
            injection h with hp
            injection hp with hr hst
            exact ⟨hd2, user, hg, hv, hlen, hr.symm, by rw [← hst]; rfl⟩
        · rw [if_pos hv] at h
          exact absurd h (by simp)
  · intro user hd hg hv hlen
    have hres : changePassword env st userId currentPassword newPassword =
        .error .invalidPasswordLength := by
      simp [changePassword, hd, hg, hv, hlen]
    exact ⟨hres, by rw [hres]; rfl⟩

/-- Witness for C9: user 2's correct current password with the new password
`short` (5 characters) fails with PasswordTooShort and leaves the state
unchanged. -/
theorem changePassword_spec_witness :
    changePassword env0 stL 2 "password2" "short" = .error .invalidPasswordLength ∧
    stateAfter stL (changePassword env0 stL 2 "password2" "short") = stL :=
  (changePassword_spec env0 stL 2 "password2" "short").2 userP
    (by decide) (by decide) (by decide) (by decide)

theorem jsTruthy_ne_none (o : Option String) (h : jsTruthy o = true) : o ≠ none := by
  cases o
  · simp [jsTruthy] at h
  · exact fun hc => Option.noConfusion hc

/-- C7: every operation preserves the invariant that an enabled TOTP
enrollment has both a stored secret and a salt. `setupTotp` flips
`totpEnabled` to true only when a (truthy) secret and salt are already
stored; `disableTotp` and `changeOperatorPassword` null the secret and
clear `totpEnabled` in the same update; every other operation either
leaves the user rows untouched or preserves the three fields. -/
theorem totp_invariant_preserved (env : Env) (st : AuthState)
    (hids : (st.users.map User.id).Nodup)
    (hinv : usersInv st.users) :
    (∀ username password fresh r st2,
      login env st username password fresh = .ok (r, st2) → usersInv st2.users) ∧
    (∀ id code fresh r st2,
      verifyTotp env st id code fresh = .ok (r, st2) → usersInv st2.users) ∧
    (∀ userId password newSecret freshSalt r st2,
      getTotpUri env st userId password newSecret freshSalt = .ok (r, st2) →
        usersInv st2.users) ∧
    (∀ userId totpCode r st2,
      setupTotp env st userId totpCode = .ok (r, st2) → usersInv st2.users) ∧
    (∀ userId password r st2,
      disableTotp env st userId password = .ok (r, st2) → usersInv st2.users) ∧
    (∀ username password locale newId fresh r st2,
      register env st username password locale newId fresh = .ok (r, st2) →
        usersInv st2.users) ∧
    (∀ newPassword r st2,
      changeOperatorPassword env st newPassword = .ok (r, st2) → usersInv st2.users) ∧
    (∀ userId cur new r st2,
      changePassword env st userId cur new = .ok (r, st2) → usersInv st2.users) ∧
    (∀ userId newU pw r st2,
      changeUsername env st userId newU pw = .ok (r, st2) → usersInv st2.users) ∧
    (∀ userId locale r st2,
      changeLocale env st userId locale = .ok (r, st2) → usersInv st2.users) ∧
    (∀ sessionId, usersInv (logout st sessionId).2.users) := by
  refine ⟨?_, ?_, ?_, ?_, ?_, ?_, ?_, ?_, ?_, ?_, ?_⟩
  · intro username password fresh r st2 h
    simp only [login] at h
    split at h
    · exact absurd h (by simp)
    · rename_i user hg
      by_cases hv : env.verify user.password password = true
      · rw [if_neg (not_not_intro hv)] at h
        by_cases hT : user.totpEnabled = true
        · rw [if_pos hT] at h
          injection h with hp
          injection hp with hr hst
          rw [← hst]
          exact hinv
        · rw [if_neg hT] at h
          injection h with hp
          injection hp with hr hst
          rw [← hst]
          exact hinv
      · rw [if_pos hv] at h
        exact absurd h (by simp)
  · intro id code fresh r st2 h
    simp only [verifyTotp] at h
    split at h
    · exact absurd h (by simp)
    · rename_i userId hres2
      split at h
      · exact absurd h (by simp)
      · rename_i n htn2
        split at h
        · exact absurd h (by simp)
        · rename_i user hgu2
          by_cases he : (¬ user.totpEnabled = true ∨ ¬ jsTruthy user.totpSecret = true ∨
              ¬ jsTruthy user.salt = true)
          · rw [if_pos he] at h
            exact absurd h (by simp)
          · rw [if_neg he] at h
            by_cases hc : (¬ env.totpCheck code
                (env.decrypt (user.totpSecret.getD "") (user.salt.getD "")) = true)
            · rw [if_pos hc] at h
              exact absurd h (by simp)
            · rw [if_neg hc] at h
              injection h with hp
              injection hp with hr hst
              rw [← hst]
              exact hinv
  · intro userId password newSecret freshSalt r st2 h
    simp only [getTotpUri] at h
    by_cases hd : env.demoMode = true
    · rw [if_pos hd] at h
      exact absurd h (by simp)
    · rw [if_neg hd] at h
      split at h
      · exact absurd h (by simp)
      · rename_i user hg
        by_cases hv : env.verify user.password password = true
        · rw [if_neg (not_not_intro hv)] at h
          by_cases hT : user.totpEnabled = true
          · rw [if_pos hT] at h
            exact absurd h (by simp)
          · rw [if_neg hT] at h
            injection h with hp
            injection hp with hr hst
            rw [← hst]
            exact usersInv_updateUser st.users userId _ hinv
              (fun u0 _ _ hen => ⟨fun hc => Option.noConfusion hc,
                fun hc => Option.noConfusion hc⟩)
        · rw [if_pos hv] at h
          exact absurd h (by simp)
  · intro userId totpCode r st2 h
    simp only [setupTotp] at h
    by_cases hd : env.demoMode = true
    · rw [if_pos hd] at h
      exact absurd h (by simp)
    · rw [if_neg hd] at h
      split at h
      · exact absurd h (by simp)
      · rename_i user hg
        by_cases he : (user.totpEnabled = true ∨ ¬ jsTruthy user.totpSecret = true ∨
            ¬ jsTruthy user.salt = true)
        · rw [if_pos he] at h
          exact absurd h (by simp)
        · rw [if_neg he] at h
          by_cases hc : (¬ env.totpCheck totpCode
              (env.decrypt (user.totpSecret.getD "") (user.salt.getD "")) = true)
          · rw [if_pos hc] at h
            exact absurd h (by simp)
          · rw [if_neg hc] at h
            injection h with hp
            injection hp with hr hst
            rw [← hst]
            push_neg at he
            obtain ⟨hT, hsec, hsal⟩ := he
            obtain ⟨humem, huid⟩ := getUserById_eq st.users userId user hg
            refine usersInv_updateUser st.users userId _ hinv ?_
            intro u0 h0mem h0id hen2
            have h00 : u0 = user :=
              List.inj_on_of_nodup_map hids h0mem humem (by rw [h0id, huid])
            subst h00
            exact ⟨jsTruthy_ne_none _ hsec, jsTruthy_ne_none _ hsal⟩
  · intro userId password r st2 h
    simp only [disableTotp] at h
    split at h
    · exact absurd h (by simp)
    · rename_i user hg
      by_cases hT : user.totpEnabled = true
      · rw [if_neg (not_not_intro hT)] at h
        by_cases hv : env.verify user.password password = true
        · rw [if_neg (not_not_intro hv)] at h
          injection h with hp
          injection hp with hr hst
          rw [← hst]
          exact usersInv_updateUser st.users userId _ hinv
            (fun u0 _ _ hen => absurd hen (by simp))
        · rw [if_pos hv] at h
          exact absurd h (by simp)
      · rw [if_pos hT] at h
        exact absurd h (by simp)
  · intro username password locale newId fresh r st2 h
    simp only [register] at h
    by_cases h0 : (getOperators st.users).length > 0
    · rw [if_pos h0] at h
      exact absurd h (by simp)
    · rw [if_neg h0] at h
      by_cases h1 : (username = "" ∨ password = "")
      · rw [if_pos h1] at h
        exact absurd h (by simp)
      · rw [if_neg h1] at h
        by_cases h2 : (username.length < 3 ∨ ¬ env.isEmail (jsToLower (jsTrim username)) = true)
        · rw [if_pos h2] at h
          exact absurd h (by simp)
        · rw [if_neg h2] at h
          split at h
          · exact absurd h (by simp)
          · injection h with hp
            injection hp with hr hst
            rw [← hst]
            intro u hu
            rcases List.mem_append.mp hu with h4 | h5
            · exact hinv u h4
            · have h6 := List.mem_singleton.mp h5
              rw [h6]
              intro hen
              exact absurd hen (by simp)
  · intro newPassword r st2 h
    simp only [changeOperatorPassword, checkPasswordChangeRequest] at h
    by_cases hm : st.marker = true
    · rw [if_neg (not_not_intro hm)] at h
      split at h
      · exact absurd h (by simp)
      · rename_i user hop
        injection h with hp
        injection hp with hr hst
        rw [← hst]
        exact usersInv_updateUser st.users user.id _ hinv
          (fun u0 _ _ hen => absurd hen (by simp))
    · rw [if_pos hm] at h
      exact absurd h (by simp)
  · intro userId cur new r st2 h
    simp only [changePassword] at h
    by_cases hd : env.demoMode = true
    · rw [if_pos hd] at h
      exact absurd h (by simp)
    · rw [if_neg hd] at h
      split at h
      · exact absurd h (by simp)
      · rename_i user hg
        by_cases hv : env.verify user.password cur = true
        · rw [if_neg (not_not_intro hv)] at h
          by_cases hlen : new.length < 8
          · rw [if_pos hlen] at h
            exact absurd h (by simp)
          · rw [if_neg hlen] at h
            injection h with hp
            injection hp with hr hst
            rw [← hst]
            exact usersInv_updateUser st.users user.id _ hinv
              (fun u0 h0mem _ => fun hen => hinv u0 h0mem hen)
        · rw [if_pos hv] at h
          exact absurd h (by simp)
  · intro userId newU pw r st2 h
    simp only [changeUsername] at h
    by_cases hd : env.demoMode = true
    · rw [if_pos hd] at h
      exact absurd h (by simp)
    · rw [if_neg hd] at h
      split at h
      · exact absurd h (by simp)
      · rename_i user hg
        by_cases hv : env.verify user.password pw = true
        · rw [if_neg (not_not_intro hv)] at h
          by_cases hmail : (¬ env.isEmail (jsToLower (jsTrim newU)) = true)
          · rw [if_pos hmail] at h
            exact absurd h (by simp)
          · rw [if_neg hmail] at h
            split at h
            · exact absurd h (by simp)
            · injection h with hp
              injection hp with hr hst
              rw [← hst]
              exact usersInv_updateUser st.users user.id _ hinv
                (fun u0 h0mem _ => fun hen => hinv u0 h0mem hen)
        · rw [if_pos hv] at h
          exact absurd h (by simp)
  · intro userId locale r st2 h
    simp only [changeLocale] at h
    by_cases hl : env.isLocaleValid locale = true
    · rw [if_neg (not_not_intro hl)] at h
      split at h
      · exact absurd h (by simp)
      · rename_i user hg
        injection h with hp
        injection hp with hr hst
        rw [← hst]
        exact usersInv_updateUser st.users user.id _ hinv
          (fun u0 h0mem _ => fun hen => hinv u0 h0mem hen)
    · rw [if_pos hl] at h
      exact absurd h (by simp)
  · intro sessionId
    exact hinv

/-- Witness for C7: from `stX` (user 3 holds a secret and a salt but is
not yet enabled), a successful `setupTotp` yields a table that still
satisfies the enrollment invariant. -/
theorem totp_invariant_preserved_witness : usersInv stY.users :=
  (totp_invariant_preserved env0 stX (by decide) (by decide)).2.2.2.1
    3 "123456" true stY rfl

end Runtipi
